import Mathlib

/-!
Shallow embedding of `src/backend/src/schemas.py` (the pydantic models of the
authopie service).  Python strings whose contents the code splits and joins are
modelled as `List Char`; opaque strings (key material, usernames, ...) as
`String`; `datetime` values and unix timestamps as `Int`; `uuid.UUID` as `Nat`.
A pydantic `Optional[T]` field is an `Option T`.  A constructor argument of
type `Option (Option T)` distinguishes a field that was not supplied (`none`,
so the class default applies) from an explicitly supplied value (`some v`).
-/

/-- Python strings, as character lists, where the code inspects their contents. -/
abbrev PyStr := List Char

/-- The return value of Python's in-place `list.sort()`: always `None`.
Line 38 of `schemas.py` compares two such return values with `==`. -/
def pySortReturn {α : Type} (_ : List α) : Option Unit := none

/-- `RoleBase` (schemas.py 21-41): `name: str`, `scopes: Optional[str] = ''`. -/
structure RoleBase where
  name : PyStr
  scopes : Option PyStr
deriving DecidableEq

/-- `RoleBase.get_scopes_as_list` (schemas.py 25-28): split the scopes string
on a single space when it is not `None`, else return `[]`. -/
def RoleBase.get_scopes_as_list (r : RoleBase) : List PyStr :=
  match r.scopes with
  | some s => s.splitOn ' '
  | none => []

/-- `RoleBase.set_scopes_from_list` (schemas.py 30-32): set `self.scopes` to
the space-join of the list; the result pairs the returned string with the
updated model (Python mutates `self`). -/
def RoleBase.set_scopes_from_list (r : RoleBase) (scopes : List PyStr) :
    PyStr × RoleBase :=
  let s := [' '].intercalate scopes
  (s, { r with scopes := some s })

/-- Validator `every_scope_only_once` (schemas.py 34-41).  The Python guard is
`[scope_list].sort() == check_list.sort()`; both calls are in-place sorts whose
value is `None`, modelled by `pySortReturn`.  `list(set(scope_list))` is
modelled by `List.dedup` (only the `.sort()` return value of the result is ever
used). -/
def every_scope_only_once (v : PyStr) : Except String PyStr :=
  let scope_list := v.splitOn ' '
  let check_list := scope_list.dedup
  if pySortReturn [scope_list] = pySortReturn check_list then
    Except.ok v
  else
    Except.error "scopes has to be a string with every scope appearing only once"

/-- Constructing a `RoleBase` (and through inheritance `RoleIn`, `RoleOut`,
`RoleInDB`): pydantic runs `every_scope_only_once` on a supplied `scopes`
value; the default `''` is used when `scopes` is not supplied. -/
def mkRoleBase (name : PyStr) (scopes : Option PyStr) : Except String RoleBase :=
  match scopes with
  | none => Except.ok (RoleBase.mk name (some []))
  | some s => (every_scope_only_once s).map (fun v => RoleBase.mk name (some v))

/-- `RoleInDB` (schemas.py 52-56): the role fields plus `id: uuid.UUID`. -/
structure RoleInDB where
  name : PyStr
  scopes : Option PyStr
  id : Nat
deriving DecidableEq

/-- `UserInDB` (schemas.py 90-96). -/
structure UserInDB where
  id : Nat
  username : String
  hashed_password : String
  roles : Option (List RoleInDB)
deriving DecidableEq

/-- `RefreshToken` (schemas.py 102-108): exactly the three fields `token`
(UUID), `user` (owning user), `exp` (expiry). -/
structure RefreshToken where
  token : Nat
  user : UserInDB
  exp : Int
deriving DecidableEq

/-- `UserInUpdate.check_for_no_data` root validator (schemas.py 76-83):
`all([...])` of the three emptiness checks raises `'No data received'`,
otherwise the values pass through unchanged. -/
def check_for_no_data (username : Option String) (password : Option String)
    (roles : List String) :
    Except String (Option String × Option String × List String) :=
  let username_check := username.isNone
  let password_check := password.isNone
  let roles_check := roles.length == 0
  if username_check && password_check && roles_check then
    Except.error "No data received"
  else
    Except.ok (username, password, roles)

/-- `KeyPair` (schemas.py 111-124); `datetime` values are unix timestamps. -/
structure KeyPair where
  kid : String
  public_key : String
  private_key : String
  exp : Int
  added_at : Option Int
deriving DecidableEq

/-- Validator `add_added_at` (schemas.py 118-121), `pre=True, always=True`:
returns `datetime.utcnow()` whatever value was supplied for the field. -/
def add_added_at (now : Int) (_v : Option (Option Int)) : Option Int :=
  some now

/-- Constructing a `KeyPair` at wall-clock time `now`: pydantic feeds the
supplied `added_at` value (or its absence) through `add_added_at`. -/
def mkKeyPair (now : Int) (kid public_key private_key : String) (exp : Int)
    (added_at : Option (Option Int)) : KeyPair :=
  { kid := kid, public_key := public_key, private_key := private_key,
    exp := exp, added_at := add_added_at now added_at }

/-- State fixed once, when `schemas.py` is imported.  `importTime` is the value
of `int(time())` evaluated in the `Token` class body (schemas.py 148), a single
number computed at import.  `AUD` stands for `config.AUD`.  Modelled from the
spec: the `config` module is not among the sources; the spec says the audience
comes from static configuration. -/
structure PyModuleState where
  importTime : Int
  AUD : String

/-- A deterministic source of fresh ids modelling `uuid.uuid4`: every draw
returns a value no earlier draw returned. -/
structure UuidGen where
  counter : Nat

/-- Draw a fresh UUID (models a call of `uuid.uuid4()`); returns the id and the
advanced generator. -/
def uuid4 (g : UuidGen) : Nat × UuidGen :=
  (g.counter, UuidGen.mk (g.counter + 1))

/-- `Token` (schemas.py 136-155): the JWT access-token claims model. -/
structure Token where
  iss : Option String
  sub : Option String
  aud : Option String
  exp : Int
  nbf : Option Int
  iat : Option Int
  jti : Option Nat
  scopes : List String
deriving DecidableEq

/-- Constructing a `Token` (schemas.py 136-155).  An argument `none` means the
field was not supplied, so the class default applies: `iss = 'authopie'`,
`sub = 'subject'`, `aud = config.AUD`, `nbf = 0`, `iat = int(time())` — the
value computed once at import and held in `s.importTime`, not re-read at
construction — and `jti` drawn from `uuid.uuid4` through
`Field(default_factory=...)`, `scopes = []`.  `exp` is required. -/
def mkToken (s : PyModuleState) (g : UuidGen)
    (iss sub aud : Option (Option String)) (exp : Int)
    (nbf iat : Option (Option Int)) (jti : Option (Option Nat))
    (scopes : Option (List String)) : Token × UuidGen :=
  let (jtiVal, g1) :=
    match jti with
    | some j => (j, g)
    | none =>
      let (u, g2) := uuid4 g
      (some u, g2)
  ({ iss := iss.getD (some "authopie"),
     sub := sub.getD (some "subject"),
     aud := aud.getD (some s.AUD),
     exp := exp,
     nbf := nbf.getD (some 0),
     iat := iat.getD (some s.importTime),
     jti := jtiVal,
     scopes := scopes.getD [] }, g1)

/-- `JWK` (schemas.py 158-168): a published public key.  These eight fields
are the whole record; no private-key field exists. -/
structure JWK where
  kid : String
  kty : String
  alg : String
  use : String
  n : String
  e : String
  x5c : Option String
  x5t : Option String
deriving DecidableEq

/-- Constructing a `JWK`; `none` arguments take the class defaults
`kty = 'RSA'`, `alg = 'RS256'`, `use = 'sig'`, `e = 'AQAB'`, and `None` for
the optional `x5c`, `x5t`. -/
def mkJWK (kid : String) (kty alg use : Option String) (n : String)
    (e : Option String) (x5c x5t : Option (Option String)) : JWK :=
  { kid := kid, kty := kty.getD "RSA", alg := alg.getD "RS256",
    use := use.getD "sig", n := n, e := e.getD "AQAB",
    x5c := x5c.getD none, x5t := x5t.getD none }

/-- `JWKS` (schemas.py 171-172): a list of `JWK`. -/
structure JWKS where
  keys : List JWK
deriving DecidableEq

/-- Claim C1: the scopes string `'a a'` splits into the scope `'a'` twice, yet
constructing a Role with it succeeds and keeps the string unchanged.  The
validator `every_scope_only_once` compares the two `None` returns of
`list.sort()`, a condition that is always true, so duplicated scopes are never
rejected — contrary to the claimed rejection. -/
theorem role_duplicate_scopes_accepted :
    ('a' :: ' ' :: 'a' :: []).splitOn ' ' = (['a'] :: ['a'] :: [])
    ∧ mkRoleBase ['r'] (some ('a' :: ' ' :: 'a' :: []))
      = Except.ok (RoleBase.mk ['r'] (some ('a' :: ' ' :: 'a' :: []))) := by
  constructor
  · decide
  · rfl

/-- Claim C2, negated: `RefreshToken` carries no consumption state — any
boolean attribute of a `RefreshToken` is already determined by the three
fields `token`, `user`, `exp`, so no consumed flag distinguishes two records
agreeing on them. -/
theorem refresh_token_has_no_consumed_flag :
    ¬ ∃ consumed : RefreshToken → Bool, ∃ a b : RefreshToken,
      a.token = b.token ∧ a.user = b.user ∧ a.exp = b.exp
      ∧ consumed a ≠ consumed b := by
  rintro ⟨f, a, b, h1, h2, h3, hne⟩
  cases a
  cases b
  simp_all

/-- Claim C2 (amended): a `RefreshToken` consists of exactly a token id, an
owning user reference, and an expiry — two refresh tokens agreeing on those
three fields are equal, so the record holds no further (consumed) state. -/
theorem refresh_token_determined_by_fields (a b : RefreshToken)
    (h1 : a.token = b.token) (h2 : a.user = b.user) (h3 : a.exp = b.exp) :
    a = b := by
  cases a
  cases b
  simp_all

/-- Witness for `refresh_token_determined_by_fields` at a concrete token. -/
theorem refresh_token_determined_by_fields_witness :
    (RefreshToken.mk 1 (UserInDB.mk 0 "u" "h" (some [])) 10)
      = RefreshToken.mk 1 (UserInDB.mk 0 "u" "h" (some [])) 10 :=
  refresh_token_determined_by_fields _ _ rfl rfl rfl

/-- Claim C3: whatever `added_at` value is supplied — an explicit timestamp,
an explicit `None`, or nothing — the constructed `KeyPair` has `added_at` equal
to the wall-clock time of construction, because the `add_added_at` validator
overrides every caller value. -/
theorem keypair_added_at_always_now (now : Int) (kid pub priv : String)
    (e : Int) (v : Option (Option Int)) :
    (mkKeyPair now kid pub priv e v).added_at = some now :=
  rfl

/-- Claim C4 evaluated on the code: a `Token` constructed without `iat` always
carries `iat = s.importTime`, the single `int(time())` value computed when the
class body ran at import — not the wall-clock time of its own construction, on
which the result does not depend at all. -/
theorem token_iat_is_import_time_constant (s : PyModuleState) (g : UuidGen)
    (iss sub aud : Option (Option String)) (e : Int) (nbf : Option (Option Int))
    (jti : Option (Option Nat)) (sc : Option (List String)) :
    (mkToken s g iss sub aud e nbf none jti sc).1.iat = some s.importTime := by
  cases jti <;> rfl

/-- Claim C5: two consecutive `Token` constructions without a supplied `jti`
draw two fresh UUIDs from `uuid.uuid4` (the `default_factory` runs per
construction), so the two `jti` values differ. -/
theorem token_jti_fresh_per_issuance (s1 s2 : PyModuleState) (g : UuidGen)
    (e1 e2 : Int) :
    (mkToken s1 g none none none e1 none none none none).1.jti
      ≠ (mkToken s2 (mkToken s1 g none none none e1 none none none none).2
          none none none e2 none none none none).1.jti := by
  intro h
  simp [mkToken, uuid4] at h

/-- Claim C6, refuted at a concrete input: with the module imported at time
100, `Token(exp=50)` is constructed successfully, yet its `exp = 50` is not
greater than its `iat = 100`. -/
theorem token_with_exp_le_iat_constructed :
    (mkToken (PyModuleState.mk 100 "aud") (UuidGen.mk 0)
        none none none 50 none none none none).1.exp = 50
    ∧ (mkToken (PyModuleState.mk 100 "aud") (UuidGen.mk 0)
        none none none 50 none none none none).1.iat = some 100
    ∧ ¬ ((50 : Int) > 100) := by
  refine ⟨rfl, rfl, by decide⟩

/-- Claim C6 (amended): `Token` construction checks no relation between `exp`
and `iat`; for any required `exp` at or below the import-time `iat` value the
construction still succeeds and yields a token with `exp ≤ iat`. -/
theorem token_exp_iat_unchecked (s : PyModuleState) (g : UuidGen) (e : Int)
    (h : e ≤ s.importTime) :
    (mkToken s g none none none e none none none none).1.exp ≤ s.importTime
    ∧ (mkToken s g none none none e none none none none).1.iat = some s.importTime
    ∧ (mkToken s g none none none e none none none none).1.exp = e := by
  exact ⟨h, rfl, rfl⟩

/-- Witness for `token_exp_iat_unchecked` at import time 100 and `exp = 40`. -/
theorem token_exp_iat_unchecked_witness :
    (mkToken (PyModuleState.mk 100 "x") (UuidGen.mk 0)
        none none none 40 none none none none).1.exp ≤ 100
    ∧ (mkToken (PyModuleState.mk 100 "x") (UuidGen.mk 0)
        none none none 40 none none none none).1.iat = some 100
    ∧ (mkToken (PyModuleState.mk 100 "x") (UuidGen.mk 0)
        none none none 40 none none none none).1.exp = 40 :=
  token_exp_iat_unchecked (PyModuleState.mk 100 "x") (UuidGen.mk 0) 40 (by decide)

/-- Claim C7: a default-constructed `JWK` has `kty = 'RSA'`, `alg = 'RS256'`,
`use = 'sig'`, `e = 'AQAB'`; and a `JWK` is fully determined by its eight
public fields `kid`, `kty`, `alg`, `use`, `n`, `e`, `x5c`, `x5t` — the record
holds no private key material. -/
theorem jwk_public_only_with_defaults :
    (∀ kid n : String,
      (mkJWK kid none none none n none none none).kty = "RSA"
      ∧ (mkJWK kid none none none n none none none).alg = "RS256"
      ∧ (mkJWK kid none none none n none none none).use = "sig"
      ∧ (mkJWK kid none none none n none none none).e = "AQAB")
    ∧ ∀ a b : JWK, a.kid = b.kid → a.kty = b.kty → a.alg = b.alg →
        a.use = b.use → a.n = b.n → a.e = b.e → a.x5c = b.x5c → a.x5t = b.x5t →
        a = b := by
  constructor
  · exact fun kid n => ⟨rfl, rfl, rfl, rfl⟩
  · intro a b h1 h2 h3 h4 h5 h6 h7 h8
    cases a
    cases b
    simp_all

/-- Witness for `jwk_public_only_with_defaults` at a concrete key. -/
theorem jwk_public_only_with_defaults_witness :
    ((mkJWK "kid1" none none none "mod1" none none none).kty = "RSA"
      ∧ (mkJWK "kid1" none none none "mod1" none none none).alg = "RS256"
      ∧ (mkJWK "kid1" none none none "mod1" none none none).use = "sig"
      ∧ (mkJWK "kid1" none none none "mod1" none none none).e = "AQAB")
    ∧ mkJWK "kid1" none none none "mod1" none none none
        = mkJWK "kid1" none none none "mod1" none none none :=
  ⟨jwk_public_only_with_defaults.1 "kid1" "mod1",
   jwk_public_only_with_defaults.2 _ _ rfl rfl rfl rfl rfl rfl rfl rfl⟩

/-- Claim C8: a `Token` constructed without a supplied `nbf` carries the class
default `nbf = 0`, so its not-before check passes from the epoch onward. -/
theorem token_nbf_defaults_to_zero (s : PyModuleState) (g : UuidGen)
    (iss sub aud : Option (Option String)) (e : Int) (iat : Option (Option Int))
    (jti : Option (Option Nat)) (sc : Option (List String)) :
    (mkToken s g iss sub aud e none iat jti sc).1.nbf = some 0 := by
  cases jti <;> rfl

/-- Claim C9: `check_for_no_data` rejects exactly the update in which username
and password are both absent and the roles list is empty, with the error
`'No data received'`; every other combination is returned unchanged. -/
theorem user_in_update_no_data_check (u p : Option String) (r : List String) :
    (u = none ∧ p = none ∧ r = [] →
      check_for_no_data u p r = Except.error "No data received")
    ∧ (¬ (u = none ∧ p = none ∧ r = []) →
      check_for_no_data u p r = Except.ok (u, p, r)) := by
  cases u <;> cases p <;> cases r <;> simp [check_for_no_data]

/-- Witness for `user_in_update_no_data_check`: the empty update is rejected
and an update carrying only a username passes through unchanged. -/
theorem user_in_update_no_data_check_witness :
    check_for_no_data none none [] = Except.error "No data received"
    ∧ check_for_no_data (some "a@b.c") none [] = Except.ok (some "a@b.c", none, []) :=
  ⟨(user_in_update_no_data_check none none []).1 ⟨rfl, rfl, rfl⟩,
   (user_in_update_no_data_check (some "a@b.c") none []).2 (by simp)⟩

/-- Claim C10: for a non-empty scope list whose entries contain no space,
`set_scopes_from_list` followed by `get_scopes_as_list` returns the original
list; for the empty list the round trip instead yields the one-element list
holding the empty string, since the empty scopes string splits to that. -/
theorem scopes_list_roundtrip (r : RoleBase) (l : List PyStr) :
    (l ≠ [] → (∀ s ∈ l, ' ' ∉ s) →
      ((r.set_scopes_from_list l).2).get_scopes_as_list = l)
    ∧ ((r.set_scopes_from_list []).2).get_scopes_as_list = ([] : PyStr) :: [] := by
  constructor
  · intro hne hsp
    exact List.splitOn_intercalate l ' ' hsp hne
  · rfl

/-- Witness for `scopes_list_roundtrip` at the scope list `['ab', 'c']` and at
the empty list. -/
theorem scopes_list_roundtrip_witness :
    ((RoleBase.set_scopes_from_list (RoleBase.mk ['r'] (some []))
        (('a' :: 'b' :: []) :: ('c' :: []) :: [])).2).get_scopes_as_list
      = ('a' :: 'b' :: []) :: ('c' :: []) :: []
    ∧ ((RoleBase.set_scopes_from_list (RoleBase.mk ['r'] (some []))
        []).2).get_scopes_as_list = ([] : PyStr) :: [] :=
  ⟨(scopes_list_roundtrip (RoleBase.mk ['r'] (some [])) _).1 (by decide) (by decide),
   (scopes_list_roundtrip (RoleBase.mk ['r'] (some [])) []).2⟩
